import Mathlib

/-!
Verification of the `azmagic` result-adapter: a shallow embedding of
`AzMagic.az` (src/azmagic/magic.py) and of the narrow contracts of its
external collaborators (the command-dispatch entry point and the
tabular-conversion capability), with theorems settling the spec's claims.
-/

namespace AzMagic

/-- A Python runtime value, as far as `AzMagic.az` inspects values:
lists, dicts (ordered key/value pairs, as Python dicts preserve insertion
order), and everything else (scalars and other objects, which `az` never
looks inside; `opq` tags an arbitrary other object). -/
inductive PyObj where
  | noneV : PyObj
  | boolV : Bool → PyObj
  | intV : Int → PyObj
  | strV : String → PyObj
  | list : List PyObj → PyObj
  | dict : List (String × PyObj) → PyObj
  | opq : Nat → PyObj
deriving Repr

/-- Python `key in d` on a dict: does some entry have this key? -/
def hasKey (kvs : List (String × PyObj)) (k : String) : Bool :=
  kvs.any (fun p => p.1 == k)

/-- Python `d[key]` on a dict: the value of the first entry with this key
(a Python dict holds each key at most once). -/
def dictGet (kvs : List (String × PyObj)) (k : String) : Option PyObj :=
  (kvs.find? (fun p => p.1 == k)).map (fun p => p.2)

/-- Modelled from the spec: the tabular-conversion collaborator
(`pd.json_normalize`, external to this repository) flattens each record's
nested mappings into dotted-path keys (spec §6, §8, glossary). -/
def flattenKVs : List (String × PyObj) → List (String × PyObj)
  | [] => []
  | (k, PyObj.dict inner) :: rest =>
      (flattenKVs inner).map (fun p => (k ++ "." ++ p.1, p.2)) ++ flattenKVs rest
  | (k, v) :: rest => (k, v) :: flattenKVs rest

/-- The flattened field list of one element of the normalized sequence:
a mapping contributes its dotted-path fields; the collaborator's contract
(spec §6) describes only record elements, so anything else contributes no
fields. -/
def recordPairs : PyObj → List (String × PyObj)
  | PyObj.dict kvs => flattenKVs kvs
  | _ => []

/-- Add a column name, keeping first-appearance order and no duplicates. -/
def insertCol (acc : List String) (c : String) : List String :=
  if c ∈ acc then acc else acc ++ [c]

/-- Accumulate the column names contributed by one flattened record. -/
def addRowCols (acc : List String) (r : List (String × PyObj)) : List String :=
  r.foldl (fun a p => insertCol a p.1) acc

/-- All column names across the flattened records, in order of first
appearance, without duplicates. -/
def columnsOf (recs : List (List (String × PyObj))) : List String :=
  recs.foldl addRowCols []

/-- A tabular structure: column names plus one flattened record per row. -/
structure DataFrame where
  columns : List String
  rows : List (List (String × PyObj))
deriving Repr

/-- Modelled from the spec: the external tabular-conversion capability
(spec §6): "a function converting a sequence of (possibly nested) mappings
into a flattened tabular structure with dotted-path column names".
A single mapping is treated as a one-element sequence, as the collaborator
does; shapes outside the described contract give an empty table. -/
def json_normalize : PyObj → DataFrame
  | PyObj.list xs =>
      let recs := xs.map recordPairs
      ⟨columnsOf recs, recs⟩
  | PyObj.dict kvs =>
      let recs := [flattenKVs kvs]
      ⟨columnsOf recs, recs⟩
  | _ => ⟨[], []⟩

/-- The stored error of the dispatch object after an abnormal exit:
`az_cli.result.error`, exposing its status code (`.code`). -/
structure ErrorInfo where
  code : Int
deriving Repr

/-- The dispatch object's result item after a call (spec §6): the
structured payload `result.result` and the abnormal-status error
`result.error`. -/
structure CommandResultItem where
  result : PyObj
  error : ErrorInfo
deriving Repr

/-- What `az_cli.invoke` does on a given invocation: either it returns an
exit code, or it raises `SystemExit` carrying a status code. -/
inductive InvokeBehavior where
  | returns : Int → InvokeBehavior
  | raisesSystemExit : Int → InvokeBehavior
deriving Repr

/-- The external command-dispatch collaborator (`get_default_cli()`),
per the spec's §6 contract: invoked on a token sequence it either returns
a numeric status or raises `SystemExit`, and afterwards exposes
`result.result` and `result.error.code`. -/
structure AzCliEnv where
  invokeBehavior : List String → InvokeBehavior
  resultAfter : List String → CommandResultItem

/-- What a call of `az` can produce for its caller: a normal return of a
Python value (`None`, a DataFrame, or any other object), or a propagated
`SystemExit` carrying a status code. -/
inductive PyRet where
  | noneVal : PyRet
  | table : DataFrame → PyRet
  | obj : PyObj → PyRet
deriving Repr

inductive AzOutcome where
  | ret : PyRet → AzOutcome
  | raised : Int → AzOutcome
deriving Repr

/-- The body of `AzMagic.az` after tokenization (src/azmagic/magic.py,
lines 43-81), over the dispatch collaborator `cli` and the token list
`args`:
invoke; on a zero exit code shape the payload (list → `json_normalize`,
OData-envelope dict → `json_normalize` of its `value` entry, other dict
and anything else → unchanged); a non-zero exit code falls off the `if`
and returns `None`; a `SystemExit` is swallowed to `None` when the stored
`az_cli.result.error.code` is `0` and re-raised unchanged otherwise. -/
def azCore (cli : AzCliEnv) (args : List String) : AzOutcome :=
  match cli.invokeBehavior args with
  | InvokeBehavior.returns exitCode =>
      if exitCode = 0 then
        match (cli.resultAfter args).result with
        | PyObj.list xs => AzOutcome.ret (PyRet.table (json_normalize (PyObj.list xs)))
        | PyObj.dict kvs =>
            if hasKey kvs "@odata.context" && hasKey kvs "value" then
              AzOutcome.ret (PyRet.table (json_normalize ((dictGet kvs "value").getD PyObj.noneV)))
            else
              AzOutcome.ret (PyRet.obj (PyObj.dict kvs))
        | other => AzOutcome.ret (PyRet.obj other)
      else
        AzOutcome.ret PyRet.noneVal
  | InvokeBehavior.raisesSystemExit excCode =>
      if (cli.resultAfter args).error.code = 0 then
        AzOutcome.ret PyRet.noneVal
      else
        AzOutcome.raised excCode

/-- `AzMagic.az` itself: tokenize the line with the host's shell-style
splitter (`shlex.split`, an external collaborator passed in as a
parameter) and run the adapter body on the tokens. -/
def az (shlexSplit : String → List String) (cli : AzCliEnv) (line : String) : AzOutcome :=
  azCore cli (shlexSplit line)

/-- A file-handle event of the adapter body: opening the null output sink
(`open(os.devnull, "w")`) or closing it. -/
inductive FileEvent where
  | openNullSink : FileEvent
  | closeNullSink : FileEvent
deriving Repr, DecidableEq

/-- `AzMagic.az` with its file-handle events made explicit: the null sink
is opened before the `try` block (line 45), and no branch — success,
swallowed `SystemExit`, or re-raise — ever closes it (there is no
`close`, no `with`, and no `finally` in the source). -/
def azCoreTraced (cli : AzCliEnv) (args : List String) : AzOutcome × List FileEvent :=
  let opened : List FileEvent := [FileEvent.openNullSink]
  match cli.invokeBehavior args with
  | InvokeBehavior.returns exitCode =>
      if exitCode = 0 then
        match (cli.resultAfter args).result with
        | PyObj.list xs =>
            (AzOutcome.ret (PyRet.table (json_normalize (PyObj.list xs))), opened)
        | PyObj.dict kvs =>
            if hasKey kvs "@odata.context" && hasKey kvs "value" then
              (AzOutcome.ret (PyRet.table (json_normalize ((dictGet kvs "value").getD PyObj.noneV))), opened)
            else
              (AzOutcome.ret (PyRet.obj (PyObj.dict kvs)), opened)
        | other => (AzOutcome.ret (PyRet.obj other), opened)
      else
        (AzOutcome.ret PyRet.noneVal, opened)
  | InvokeBehavior.raisesSystemExit excCode =>
      if (cli.resultAfter args).error.code = 0 then
        (AzOutcome.ret PyRet.noneVal, opened)
      else
        (AzOutcome.raised excCode, opened)

/-! ### Helper lemmas about the column computation -/

theorem mem_insertCol {acc : List String} {k c : String} :
    c ∈ insertCol acc k ↔ c ∈ acc ∨ c = k := by
  unfold insertCol
  split
  · next hk =>
    constructor
    · exact Or.inl
    · rintro (h | rfl)
      · exact h
      · exact hk
  · simp

theorem insertCol_nodup {acc : List String} (h : acc.Nodup) (k : String) :
    (insertCol acc k).Nodup := by
  unfold insertCol
  split
  · exact h
  · next hk => simp [List.nodup_append, h, hk]

theorem mem_addRowCols {c : String} :
    ∀ (r : List (String × PyObj)) (acc : List String),
      c ∈ addRowCols acc r ↔ c ∈ acc ∨ c ∈ r.map Prod.fst
  | [], acc => by simp [addRowCols]
  | p :: rest, acc => by
    have hstep : addRowCols acc (p :: rest) = addRowCols (insertCol acc p.1) rest := rfl
    rw [hstep, mem_addRowCols rest (insertCol acc p.1), mem_insertCol]
    simp [or_assoc]

theorem addRowCols_nodup :
    ∀ (r : List (String × PyObj)) (acc : List String),
      acc.Nodup → (addRowCols acc r).Nodup
  | [], _, h => h
  | p :: rest, acc, h => addRowCols_nodup rest (insertCol acc p.1) (insertCol_nodup h p.1)

theorem mem_foldl_addRowCols {c : String} :
    ∀ (recs : List (List (String × PyObj))) (acc : List String),
      c ∈ recs.foldl addRowCols acc ↔ c ∈ acc ∨ ∃ r ∈ recs, c ∈ r.map Prod.fst
  | [], acc => by simp
  | r :: rest, acc => by
    rw [List.foldl_cons, mem_foldl_addRowCols rest (addRowCols acc r), mem_addRowCols]
    simp [or_assoc]

theorem mem_columnsOf {c : String} {recs : List (List (String × PyObj))} :
    c ∈ columnsOf recs ↔ ∃ r ∈ recs, c ∈ r.map Prod.fst := by
  unfold columnsOf
  rw [mem_foldl_addRowCols]
  simp

theorem columnsOf_nodup (recs : List (List (String × PyObj))) :
    (columnsOf recs).Nodup := by
  unfold columnsOf
  suffices h : ∀ (l : List (List (String × PyObj))) (acc : List String),
      acc.Nodup → (l.foldl addRowCols acc).Nodup from h recs [] List.nodup_nil
  intro l
  induction l with
  | nil => exact fun acc h => h
  | cons r rest ih => exact fun acc h => ih (addRowCols acc r) (addRowCols_nodup r acc h)

/-! ### Concrete environments used as witnesses -/

/-- A dispatch environment that raises `SystemExit excCode` on every
invocation and afterwards stores `errCode` as `result.error.code`. -/
def exitEnv (excCode errCode : Int) : AzCliEnv :=
  ⟨fun _ => InvokeBehavior.raisesSystemExit excCode,
   fun _ => ⟨PyObj.noneV, ⟨errCode⟩⟩⟩

/-- A dispatch environment that returns exit code `ec` on every invocation
and exposes `payload` as `result.result` (with stored error code `ec`). -/
def returnEnv (ec : Int) (payload : PyObj) : AzCliEnv :=
  ⟨fun _ => InvokeBehavior.returns ec, fun _ => ⟨payload, ⟨ec⟩⟩⟩

/-- A trivial stand-in for the host's shell tokenizer, used only to build
closed witness invocations (the adapter's outcome never depends on the
token values, only on the dispatch collaborator's behavior on them). -/
def constSplit : String → List String := fun _ => []

/-! ### Claim theorems: error handling -/

/-- C1: whenever the dispatch raises `SystemExit` and the termination's
associated status code (the dispatch object's stored `result.error.code`)
is zero, the `az` line-magic returns `None` and no exception propagates to
the caller. -/
theorem az_systemExit_code_zero_returns_none
    (split : String → List String) (cli : AzCliEnv) (line : String) (c : Int)
    (hinv : cli.invokeBehavior (split line) = InvokeBehavior.raisesSystemExit c)
    (herr : (cli.resultAfter (split line)).error.code = 0) :
    az split cli line = AzOutcome.ret PyRet.noneVal := by
  unfold az azCore
  rw [hinv]
  simp [herr]

/-- Witness for C1: a concrete invocation raising `SystemExit 0` with
stored error code `0` returns `None`. -/
theorem az_systemExit_code_zero_returns_none_witness :
    az constSplit (exitEnv 0 0) "group list --help" = AzOutcome.ret PyRet.noneVal :=
  az_systemExit_code_zero_returns_none constSplit (exitEnv 0 0) "group list --help" 0
    rfl rfl

/-- C2: whenever the dispatch raises `SystemExit` carrying a non-zero
status code (the stored `result.error.code` agreeing with the signal's own
code, as the dispatch collaborator guarantees — its stored error is the
`SystemExit` exception itself), the same signal with the same status code
propagates unchanged to the caller. -/
theorem az_systemExit_nonzero_propagates
    (split : String → List String) (cli : AzCliEnv) (line : String) (c : Int)
    (hinv : cli.invokeBehavior (split line) = InvokeBehavior.raisesSystemExit c)
    (herr : (cli.resultAfter (split line)).error.code = c)
    (hc : c ≠ 0) :
    az split cli line = AzOutcome.raised c := by
  unfold az azCore
  rw [hinv]
  simp [herr, hc]

/-- Witness for C2: a concrete invocation raising `SystemExit 1` (stored
error code `1`) propagates `SystemExit 1`. -/
theorem az_systemExit_nonzero_propagates_witness :
    az constSplit (exitEnv 1 1) "group show --name missing" = AzOutcome.raised 1 :=
  az_systemExit_nonzero_propagates constSplit (exitEnv 1 1) "group show --name missing" 1
    rfl rfl (by decide)

/-- C7: whenever the dispatch returns a non-zero exit code without
raising, the `az` line-magic falls off the `if exit_code == 0` block
(which has no `else`) and returns `None`, whatever the stored result
payload is. -/
theorem az_nonzero_exit_returns_none
    (split : String → List String) (cli : AzCliEnv) (line : String) (ec : Int)
    (hinv : cli.invokeBehavior (split line) = InvokeBehavior.returns ec)
    (hec : ec ≠ 0) :
    az split cli line = AzOutcome.ret PyRet.noneVal := by
  unfold az azCore
  rw [hinv]
  simp [hec]

/-- Witness for C7: a concrete invocation returning exit code `2` with a
non-trivial stored payload returns `None`, discarding the payload. -/
theorem az_nonzero_exit_returns_none_witness :
    az constSplit (returnEnv 2 (PyObj.strV "discarded")) "account show"
      = AzOutcome.ret PyRet.noneVal :=
  az_nonzero_exit_returns_none constSplit (returnEnv 2 (PyObj.strV "discarded"))
    "account show" 2 rfl (by decide)

/-- C9: when `SystemExit` is caught, the swallow-or-reraise decision reads
the dispatch object's stored `result.error.code`, not the exception's own
code: the call returns `None` exactly when the stored code is zero,
whatever code `c` the signal itself carries, and otherwise the signal is
re-raised with its own code `c`. -/
theorem az_swallow_follows_stored_error_code
    (split : String → List String) (cli : AzCliEnv) (line : String) (c : Int)
    (hinv : cli.invokeBehavior (split line) = InvokeBehavior.raisesSystemExit c) :
    (az split cli line = AzOutcome.ret PyRet.noneVal
        ↔ (cli.resultAfter (split line)).error.code = 0)
      ∧ ((cli.resultAfter (split line)).error.code ≠ 0
        → az split cli line = AzOutcome.raised c) := by
  unfold az azCore
  rw [hinv]
  by_cases herr : (cli.resultAfter (split line)).error.code = 0 <;> simp [herr]

/-- Witness for C9: a dispatch raising `SystemExit 5` while storing error
code `0` is swallowed to `None` — behavior follows the stored code even
when the two differ. -/
theorem az_swallow_follows_stored_error_code_witness :
    az constSplit (exitEnv 5 0) "vm list" = AzOutcome.ret PyRet.noneVal :=
  ((az_swallow_follows_stored_error_code constSplit (exitEnv 5 0) "vm list" 5 rfl).1).mpr
    rfl

/-- C10: every invocation opens a handle to the null output sink before
dispatch, and no path through the function — success, benign swallowed
termination, or re-raised termination — closes it; the traced semantics
agrees with the untraced one on the outcome. -/
theorem az_opens_null_sink_never_closes (cli : AzCliEnv) (args : List String) :
    FileEvent.openNullSink ∈ (azCoreTraced cli args).2
      ∧ FileEvent.closeNullSink ∉ (azCoreTraced cli args).2
      ∧ (azCoreTraced cli args).1 = azCore cli args := by
  unfold azCoreTraced azCore
  rcases cli.invokeBehavior args with ec | c
  · by_cases hec : ec = 0 <;> simp [hec]
    rcases (cli.resultAfter args).result with _ | b | n | s | xs | kvs | t <;> simp
    by_cases hk : hasKey kvs "@odata.context" = true ∧ hasKey kvs "value" = true <;>
      simp [hk]
  · by_cases herr : (cli.resultAfter args).error.code = 0 <;> simp [herr]

/-! ### Claim theorems: success-path result shaping -/

/-- Every column of a normalized table is contributed by one of its rows:
the tabular conversion never invents a column that no flattened record
produces. -/
theorem json_normalize_columns_from_rows (v : PyObj) :
    ∀ c ∈ (json_normalize v).columns, ∃ r ∈ (json_normalize v).rows, c ∈ r.map Prod.fst := by
  rcases v with _ | b | n | s | xs | kvs | t <;>
    simp only [json_normalize, List.not_mem_nil, false_implies, implies_true] <;>
    intro c hc <;> exact mem_columnsOf.mp hc

/-- C4: a successful invocation whose payload is a sequence of mappings
returns the normalized table, which has exactly one row per mapping and
exactly one column per flattened dotted-path key occurring across the
sequence. -/
theorem az_list_of_mappings_tabular
    (split : String → List String) (cli : AzCliEnv) (line : String) (xs : List PyObj)
    (hinv : cli.invokeBehavior (split line) = InvokeBehavior.returns 0)
    (hres : (cli.resultAfter (split line)).result = PyObj.list xs)
    (_hmaps : ∀ x ∈ xs, ∃ kvs, x = PyObj.dict kvs) :
    az split cli line = AzOutcome.ret (PyRet.table (json_normalize (PyObj.list xs)))
      ∧ (json_normalize (PyObj.list xs)).rows.length = xs.length
      ∧ (json_normalize (PyObj.list xs)).columns.Nodup
      ∧ ∀ c, c ∈ (json_normalize (PyObj.list xs)).columns
          ↔ ∃ x ∈ xs, c ∈ (recordPairs x).map Prod.fst := by
  refine ⟨?_, ?_, ?_, ?_⟩
  · unfold az azCore
    rw [hinv, hres]
    simp
  · simp [json_normalize]
  · exact columnsOf_nodup _
  · intro c
    rw [show (json_normalize (PyObj.list xs)).columns
        = columnsOf (xs.map recordPairs) from rfl, mem_columnsOf]
    simp

/-- The spec's first example payload: two resource-group records. -/
def groupListRecords : List PyObj :=
  [PyObj.dict [("name", PyObj.strV "rg1"), ("location", PyObj.strV "eastus")],
   PyObj.dict [("name", PyObj.strV "rg2"), ("location", PyObj.strV "westus")]]

/-- Witness for C4: the spec's `group list` example — two flat records —
yields the table, with two rows and the columns `name`, `location`. -/
theorem az_list_of_mappings_tabular_witness :
    az constSplit (returnEnv 0 (PyObj.list groupListRecords)) "group list"
        = AzOutcome.ret (PyRet.table (json_normalize (PyObj.list groupListRecords)))
      ∧ (json_normalize (PyObj.list groupListRecords)).rows.length = groupListRecords.length
      ∧ (json_normalize (PyObj.list groupListRecords)).columns.Nodup
      ∧ ∀ c, c ∈ (json_normalize (PyObj.list groupListRecords)).columns
          ↔ ∃ x ∈ groupListRecords, c ∈ (recordPairs x).map Prod.fst :=
  az_list_of_mappings_tabular constSplit (returnEnv 0 (PyObj.list groupListRecords))
    "group list" groupListRecords rfl rfl (by simp [groupListRecords])

/-- C5: a successful invocation whose payload is a mapping lacking at
least one of the keys `@odata.context` and `value` returns that mapping
unchanged. -/
theorem az_plain_dict_identity
    (split : String → List String) (cli : AzCliEnv) (line : String)
    (kvs : List (String × PyObj))
    (hinv : cli.invokeBehavior (split line) = InvokeBehavior.returns 0)
    (hres : (cli.resultAfter (split line)).result = PyObj.dict kvs)
    (hmiss : ¬(hasKey kvs "@odata.context" = true ∧ hasKey kvs "value" = true)) :
    az split cli line = AzOutcome.ret (PyRet.obj (PyObj.dict kvs)) := by
  unfold az azCore
  rw [hinv, hres]
  simp [hmiss]

/-- The spec's `account show` example payload: a mapping with neither
OData key. -/
def accountShowPairs : List (String × PyObj) :=
  [("id", PyObj.strV "sub-1"), ("name", PyObj.strV "My Sub")]

/-- Witness for C5: the spec's `account show` example mapping comes back
unchanged. -/
theorem az_plain_dict_identity_witness :
    az constSplit (returnEnv 0 (PyObj.dict accountShowPairs)) "account show"
      = AzOutcome.ret (PyRet.obj (PyObj.dict accountShowPairs)) :=
  az_plain_dict_identity constSplit (returnEnv 0 (PyObj.dict accountShowPairs))
    "account show" accountShowPairs rfl rfl (by decide)

/-- C6: a successful invocation whose payload is neither a list nor a
mapping returns that object unchanged. -/
theorem az_other_object_identity
    (split : String → List String) (cli : AzCliEnv) (line : String) (v : PyObj)
    (hinv : cli.invokeBehavior (split line) = InvokeBehavior.returns 0)
    (hres : (cli.resultAfter (split line)).result = v)
    (hlist : ∀ xs, v ≠ PyObj.list xs) (hdict : ∀ kvs, v ≠ PyObj.dict kvs) :
    az split cli line = AzOutcome.ret (PyRet.obj v) := by
  unfold az azCore
  rw [hinv, hres]
  rcases v with _ | b | n | s | xs | kvs | t
  · simp
  · simp
  · simp
  · simp
  · exact absurd rfl (hlist xs)
  · exact absurd rfl (hdict kvs)
  · simp

/-- Witness for C6: a scalar payload (the integer 42) comes back
unchanged. -/
theorem az_other_object_identity_witness :
    az constSplit (returnEnv 0 (PyObj.intV 42)) "vm count"
      = AzOutcome.ret (PyRet.obj (PyObj.intV 42)) :=
  az_other_object_identity constSplit (returnEnv 0 (PyObj.intV 42)) "vm count"
    (PyObj.intV 42) rfl rfl (fun _ h => PyObj.noConfusion h) (fun _ h => PyObj.noConfusion h)

/-- C8: the list branch tests only for the list type: any successful
invocation whose payload is a list — empty or with non-mapping elements
included — gets the tabular conversion applied, and is never returned
unchanged. -/
theorem az_any_list_normalized
    (split : String → List String) (cli : AzCliEnv) (line : String) (xs : List PyObj)
    (hinv : cli.invokeBehavior (split line) = InvokeBehavior.returns 0)
    (hres : (cli.resultAfter (split line)).result = PyObj.list xs) :
    az split cli line = AzOutcome.ret (PyRet.table (json_normalize (PyObj.list xs)))
      ∧ az split cli line ≠ AzOutcome.ret (PyRet.obj (PyObj.list xs)) := by
  have h1 : az split cli line = AzOutcome.ret (PyRet.table (json_normalize (PyObj.list xs))) := by
    unfold az azCore
    rw [hinv, hres]
    simp
  refine ⟨h1, ?_⟩
  rw [h1]
  simp

/-- Witness for C8: a list of two non-mapping elements is still run
through the tabular conversion rather than returned unchanged. -/
theorem az_any_list_normalized_witness :
    az constSplit (returnEnv 0 (PyObj.list [PyObj.intV 1, PyObj.intV 2])) "scalar list"
        = AzOutcome.ret (PyRet.table (json_normalize (PyObj.list [PyObj.intV 1, PyObj.intV 2])))
      ∧ az constSplit (returnEnv 0 (PyObj.list [PyObj.intV 1, PyObj.intV 2])) "scalar list"
        ≠ AzOutcome.ret (PyRet.obj (PyObj.list [PyObj.intV 1, PyObj.intV 2])) :=
  az_any_list_normalized constSplit (returnEnv 0 (PyObj.list [PyObj.intV 1, PyObj.intV 2]))
    "scalar list" [PyObj.intV 1, PyObj.intV 2] rfl rfl

/-- An OData `value` payload whose single record itself carries a key
literally named `@odata.context`. -/
def odataValueWithCtxKey : PyObj :=
  PyObj.list [PyObj.dict [("@odata.context", PyObj.intV 1)]]

/-- An OData envelope (both `@odata.context` and `value` keys) wrapping
`odataValueWithCtxKey`. -/
def odataEnvelopeWithCtxKey : PyObj :=
  PyObj.dict [("@odata.context", PyObj.strV "ctx"), ("value", odataValueWithCtxKey)]

/-- Counterexample to C3 as stated: for this successful invocation the
payload is a mapping with both `@odata.context` and `value`, the result
is the tabular conversion of the `value` entry — yet the key
`@odata.context` is NOT absent from the output, because a record inside
`value` itself carries that key and so contributes it as a column. -/
theorem az_odata_context_present_counterexample :
    az constSplit (returnEnv 0 odataEnvelopeWithCtxKey) "ad user list"
        = AzOutcome.ret (PyRet.table (json_normalize odataValueWithCtxKey))
      ∧ "@odata.context" ∈ (json_normalize odataValueWithCtxKey).columns := by
  constructor
  · unfold az azCore
    simp [returnEnv, odataEnvelopeWithCtxKey, hasKey, dictGet]
  · simp [odataValueWithCtxKey, json_normalize, recordPairs, flattenKVs,
      columnsOf, addRowCols, insertCol]

/-- C3 (amended): a successful invocation whose payload is a mapping with
both `@odata.context` and `value` returns the tabular conversion of the
`value` entry, discarding the envelope: every column of the output comes
from the flattened records under `value`, so the envelope's own
`@odata.context` entry never appears — the `@odata.context` key is absent
from the output unless the records under `value` themselves flatten to
that key. -/
theorem az_odata_envelope_discarded
    (split : String → List String) (cli : AzCliEnv) (line : String)
    (kvs : List (String × PyObj)) (v : PyObj)
    (hinv : cli.invokeBehavior (split line) = InvokeBehavior.returns 0)
    (hres : (cli.resultAfter (split line)).result = PyObj.dict kvs)
    (hctx : hasKey kvs "@odata.context" = true)
    (hval : hasKey kvs "value" = true)
    (hget : dictGet kvs "value" = some v) :
    az split cli line = AzOutcome.ret (PyRet.table (json_normalize v))
      ∧ (∀ c ∈ (json_normalize v).columns, ∃ r ∈ (json_normalize v).rows, c ∈ r.map Prod.fst)
      ∧ ((∀ r ∈ (json_normalize v).rows, "@odata.context" ∉ r.map Prod.fst)
          → "@odata.context" ∉ (json_normalize v).columns) := by
  refine ⟨?_, json_normalize_columns_from_rows v, ?_⟩
  · unfold az azCore
    rw [hinv, hres]
    simp [hctx, hval, hget]
  · intro habs hc
    obtain ⟨r, hr, hcr⟩ := json_normalize_columns_from_rows v _ hc
    exact habs r hr hcr

/-- The spec's fourth example payload: an OData envelope whose `value`
holds two `id` records. -/
def odataIdValue : PyObj :=
  PyObj.list [PyObj.dict [("id", PyObj.intV 1)], PyObj.dict [("id", PyObj.intV 2)]]

/-- Witness for the amended C3: the spec's `ad user list` example — the
envelope is discarded and the `value` records are normalized. -/
theorem az_odata_envelope_discarded_witness :
    az constSplit
        (returnEnv 0 (PyObj.dict [("@odata.context", PyObj.strV "ctx"), ("value", odataIdValue)]))
        "ad user list"
        = AzOutcome.ret (PyRet.table (json_normalize odataIdValue))
      ∧ (∀ c ∈ (json_normalize odataIdValue).columns,
          ∃ r ∈ (json_normalize odataIdValue).rows, c ∈ r.map Prod.fst)
      ∧ ((∀ r ∈ (json_normalize odataIdValue).rows, "@odata.context" ∉ r.map Prod.fst)
          → "@odata.context" ∉ (json_normalize odataIdValue).columns) :=
  az_odata_envelope_discarded constSplit
    (returnEnv 0 (PyObj.dict [("@odata.context", PyObj.strV "ctx"), ("value", odataIdValue)]))
    "ad user list"
    [("@odata.context", PyObj.strV "ctx"), ("value", odataIdValue)] odataIdValue
    rfl rfl (by decide) (by decide) rfl

end AzMagic
